import Mathlib

/-!
Shallow embedding of the stablecoin simulator's dynamics core
(`src/model/dynamics.py` and `src/model/parameters.py`).

Real-valued quantities are modelled by `ℝ`; Python's `x ** 1.5` on a
non-negative base is `Real.rpow`, `x ** 2` is the natural-number power,
`max`/`min`/`abs` are the lattice operations on `ℝ`.

Python's `a / b` raises `ZeroDivisionError` when `b == 0`.  The divisions
guarded in the source (every division by the current supply, and the
division by `initial_liquidity` in `update_demand`) can never raise, so the
primary embedding below uses total real division, which agrees with the
source whenever `initial_liquidity ≠ 0`.  The unguarded divisions by
`initial_liquidity` (in `update_supply`, `update_liquidity`,
`update_price`) can raise; the `...Exc` variants further below return
`Option ℝ` and model exactly those raise sites, with `none` for a raised
`ZeroDivisionError`.
-/

/-- Configuration record, from `SystemParameters` in `src/model/parameters.py`
(fields in source order; the source defaults are `defaultParams` below). -/
structure SystemParameters where
  mint_coefficient : ℝ
  burn_coefficient : ℝ
  liquidity_depth : ℝ
  demand_elasticity : ℝ
  initial_supply : ℝ
  initial_collateral : ℝ
  initial_price : ℝ
  initial_liquidity : ℝ
  initial_demand : ℝ
  dt : ℝ
  random_seed : ℤ
  collapse_price_threshold : ℝ
  recovery_price_threshold : ℝ

/-- The default field values of `SystemParameters` in `src/model/parameters.py`. -/
noncomputable def defaultParams : SystemParameters :=
  ⟨0.1, 0.1, 1e6, 0.5, 1e6, 1.5e6, 1.0, 1e6, 1e6, 0.1, 42, 0.5, 0.95⟩

/-- The five-component state tuple `(S, P, C, L, D)` consumed and produced by
`simulate_step` in `src/model/dynamics.py`. -/
structure SystemState where
  supply : ℝ
  price : ℝ
  collateral : ℝ
  liquidity : ℝ
  demand : ℝ

/-- `update_supply` from `src/model/dynamics.py`: mint when above peg (capped
by a tenth of liquidity), burn when at or below peg, the burn scaled by an
effectiveness factor (collateral-ratio collapse, falling-knife penalty below
price 0.8, liquidity effectiveness) and capped at a tenth of supply. -/
noncomputable def update_supply (S P L C : ℝ) (params : SystemParameters) : ℝ :=
  let price_deviation := P - 1
  let collateral_ratio := if S > 0 then C / S else 1
  if price_deviation > 0 then
    let delta_mint := params.mint_coefficient * price_deviation * S
    let delta_mint := min delta_mint (L * 0.1)
    S + delta_mint
  else
    let delta_burn := params.burn_coefficient * |price_deviation| * S
    let effectiveness :=
      if collateral_ratio < 1 then max (collateral_ratio ^ 2) 0.01 else 1
    let effectiveness :=
      if P < 0.8 then effectiveness * (P / 0.8) ^ 2 else effectiveness
    let liquidity_effectiveness := min (L / params.initial_liquidity) 1
    let effectiveness := effectiveness * liquidity_effectiveness
    let delta_burn := delta_burn * effectiveness
    let delta_burn := min delta_burn (S * 0.1)
    S - delta_burn

/-- `update_price` from `src/model/dynamics.py`: `1` on non-positive supply,
otherwise demand over supply, pulled toward the collateral ratio when
undercollateralized, hit by liquidity slippage below half the initial
liquidity, and floored at `0.001`. -/
noncomputable def update_price (S D L C : ℝ) (params : SystemParameters) : ℝ :=
  if S ≤ 0 then 1
  else
    let base_price := D / S
    let collateral_ratio := C / S
    let price :=
      if collateral_ratio < 1 then
        let awareness := 1 - collateral_ratio
        let panic_awareness := awareness ^ (1.5 : ℝ)
        let fundamental_price := collateral_ratio
        base_price * (1 - panic_awareness) + fundamental_price * panic_awareness
      else base_price
    let liquidity_ratio := L / params.initial_liquidity
    let price :=
      if liquidity_ratio < 0.5 then price * (liquidity_ratio / 0.5) ^ 2 else price
    max price 0.001

/-- `update_collateral` from `src/model/dynamics.py`: apply the exogenous
fractional shock, then the reflexive crash below price `0.9`, then clamp at
zero.  (The supply argument `S` is unused in the source as well.) -/
noncomputable def update_collateral (C P S : ℝ) (shock : ℝ) : ℝ :=
  let C_new := C * (1 + shock)
  let C_new :=
    if P < 0.9 then
      let depeg_severity := (0.9 - P) / 0.9
      let reflexive_crash := depeg_severity * 0.2
      C_new * (1 - reflexive_crash)
    else C_new
  max C_new 0

/-- The `total_flow` computed inside `update_liquidity` in
`src/model/dynamics.py`: stability-proportional base flow plus the
instability, collateral-ratio and bank-run penalties. -/
noncomputable def liquidityFlow (L P S C : ℝ) (params : SystemParameters) : ℝ :=
  let collateral_ratio := if S > 0 then C / S else 1
  let stability := 1 - |P - 1|
  let base_flow := 0.02 * stability
  let instability_penalty := if |P - 1| > 0.05 then -0.15 * |P - 1| else 0
  let cr_penalty := if collateral_ratio < 1 then -0.2 * (1 - collateral_ratio) else 0
  let liquidity_ratio := L / params.initial_liquidity
  let bank_run_penalty :=
    if liquidity_ratio < 0.5 then -0.25 * (0.5 - liquidity_ratio) else 0
  base_flow + instability_penalty + cr_penalty + bank_run_penalty

/-- `update_liquidity` from `src/model/dynamics.py`: apply `total_flow` as a
multiplicative growth rate, then floor at 1% of the initial liquidity. -/
noncomputable def update_liquidity (L P S C : ℝ) (params : SystemParameters) : ℝ :=
  max (L * (1 + liquidityFlow L P S C params)) (params.initial_liquidity * 0.01)

/-- `update_demand` from `src/model/dynamics.py`: elastic price response plus
collateral, price and liquidity panic terms, applied as a fractional change
and floored at 1% of the initial demand. -/
noncomputable def update_demand (D P S C L : ℝ) (params : SystemParameters) : ℝ :=
  let collateral_ratio := if S > 0 then C / S else 1
  let liquidity_ratio :=
    if params.initial_liquidity > 0 then L / params.initial_liquidity else 1
  let price_effect := -params.demand_elasticity * (P - 1)
  let panic_factor : ℝ := 0
  let panic_factor :=
    if collateral_ratio < 1 then
      let deficit := 1 - collateral_ratio
      let pf := panic_factor - 0.5 * deficit ^ (1.5 : ℝ)
      if collateral_ratio < 0.7 then pf - 0.3 else pf
    else panic_factor
  let panic_factor :=
    if P < 0.9 then
      let price_panic := (0.9 - P) / 0.9
      let pf := panic_factor - 0.4 * price_panic ^ (1.5 : ℝ)
      if P < 0.7 then pf - 0.25 else pf
    else panic_factor
  let panic_factor :=
    if liquidity_ratio < 0.3 then
      let liquidity_panic := (0.3 - liquidity_ratio) / 0.3
      panic_factor - 0.5 * liquidity_panic
    else panic_factor
  let total_change := (price_effect + panic_factor) * D
  max (D + total_change) (params.initial_demand * 0.01)

/-- `simulate_step` from `src/model/dynamics.py`: the five updates composed in
source order — collateral, liquidity, liquidity shock, demand, supply, price. -/
noncomputable def simulate_step (state : SystemState) (params : SystemParameters)
    (collateral_shock liquidity_shock : ℝ) : SystemState :=
  let C_new := update_collateral state.collateral state.price state.supply collateral_shock
  let L_new := update_liquidity state.liquidity state.price state.supply C_new params
  let L_new := L_new * (1 + liquidity_shock)
  let D_new := update_demand state.demand state.price state.supply C_new L_new params
  let S_new := update_supply state.supply state.price L_new C_new params
  let P_new := update_price S_new D_new L_new C_new params
  ⟨S_new, P_new, C_new, L_new, D_new⟩

/-- Python division: `none` models the `ZeroDivisionError` raised on a zero
denominator. -/
noncomputable def divRaise (a b : ℝ) : Option ℝ :=
  if b = 0 then none else some (a / b)

/-- Exception-aware `update_supply`: its only raise site is the unguarded
`L / params.initial_liquidity` on the burn branch (the division by `S` is
guarded by `if S > 0` in the source). -/
noncomputable def update_supplyExc (S P L C : ℝ) (params : SystemParameters) : Option ℝ :=
  let price_deviation := P - 1
  let collateral_ratio := if S > 0 then C / S else 1
  if price_deviation > 0 then
    let delta_mint := params.mint_coefficient * price_deviation * S
    let delta_mint := min delta_mint (L * 0.1)
    some (S + delta_mint)
  else do
    let delta_burn := params.burn_coefficient * |price_deviation| * S
    let effectiveness :=
      if collateral_ratio < 1 then max (collateral_ratio ^ 2) 0.01 else 1
    let effectiveness :=
      if P < 0.8 then effectiveness * (P / 0.8) ^ 2 else effectiveness
    let lr ← divRaise L params.initial_liquidity
    let liquidity_effectiveness := min lr 1
    let effectiveness := effectiveness * liquidity_effectiveness
    let delta_burn := delta_burn * effectiveness
    let delta_burn := min delta_burn (S * 0.1)
    some (S - delta_burn)

/-- Exception-aware `update_price`: raise sites are `D / S` and `C / S`
(unreachable with a zero denominator, behind the `S <= 0` early return) and
the unguarded `L / params.initial_liquidity`. -/
noncomputable def update_priceExc (S D L C : ℝ) (params : SystemParameters) : Option ℝ :=
  if S ≤ 0 then some 1
  else do
    let base_price ← divRaise D S
    let collateral_ratio ← divRaise C S
    let price :=
      if collateral_ratio < 1 then
        let awareness := 1 - collateral_ratio
        let panic_awareness := awareness ^ (1.5 : ℝ)
        let fundamental_price := collateral_ratio
        base_price * (1 - panic_awareness) + fundamental_price * panic_awareness
      else base_price
    let liquidity_ratio ← divRaise L params.initial_liquidity
    let price :=
      if liquidity_ratio < 0.5 then price * (liquidity_ratio / 0.5) ^ 2 else price
    some (max price 0.001)

/-- Exception-aware `update_liquidity`: its only raise site is the unguarded
`L / params.initial_liquidity` at the bank-run term. -/
noncomputable def update_liquidityExc (L P S C : ℝ) (params : SystemParameters) :
    Option ℝ := do
  let collateral_ratio := if S > 0 then C / S else 1
  let stability := 1 - |P - 1|
  let base_flow := 0.02 * stability
  let instability_penalty := if |P - 1| > 0.05 then -0.15 * |P - 1| else 0
  let cr_penalty := if collateral_ratio < 1 then -0.2 * (1 - collateral_ratio) else 0
  let liquidity_ratio ← divRaise L params.initial_liquidity
  let bank_run_penalty :=
    if liquidity_ratio < 0.5 then -0.25 * (0.5 - liquidity_ratio) else 0
  let total_flow := base_flow + instability_penalty + cr_penalty + bank_run_penalty
  some (max (L * (1 + total_flow)) (params.initial_liquidity * 0.01))

/-- Exception-aware `update_demand`: both of its divisions are conditionally
guarded in the source (`if S > 0`, `if params.initial_liquidity > 0`), so it
never raises and agrees with the total embedding everywhere. -/
noncomputable def update_demandExc (D P S C L : ℝ) (params : SystemParameters) :
    Option ℝ :=
  some (update_demand D P S C L params)

/-- Exception-aware `simulate_step`: the source composition, with a raised
`ZeroDivisionError` in any sub-update propagating out as `none`. -/
noncomputable def simulate_stepExc (state : SystemState) (params : SystemParameters)
    (collateral_shock liquidity_shock : ℝ) : Option SystemState := do
  let C_new := update_collateral state.collateral state.price state.supply collateral_shock
  let L_new ← update_liquidityExc state.liquidity state.price state.supply C_new params
  let L_new := L_new * (1 + liquidity_shock)
  let D_new ← update_demandExc state.demand state.price state.supply C_new L_new params
  let S_new ← update_supplyExc state.supply state.price L_new C_new params
  let P_new ← update_priceExc S_new D_new L_new C_new params
  some ⟨S_new, P_new, C_new, L_new, D_new⟩

/-- Parameters with the source's coefficient defaults and all initial
conditions scaled to `1`, used as concrete instances in the theorems below. -/
noncomputable def unitParams : SystemParameters :=
  ⟨0.1, 0.1, 1, 0.5, 1, 1, 1, 1, 1, 0.1, 42, 0.5, 0.95⟩

/-- `unitParams` with a negative `mint_coefficient` (the source never
validates coefficient signs). -/
noncomputable def negMintParams : SystemParameters :=
  ⟨-10, 0.1, 1, 0.5, 1, 1, 1, 1, 1, 0.1, 42, 0.5, 0.95⟩

/-- `unitParams` with `initial_liquidity = 0`. -/
noncomputable def zeroLiqParams : SystemParameters :=
  ⟨0.1, 0.1, 1, 0.5, 1, 1, 1, 0, 1, 0.1, 42, 0.5, 0.95⟩

/-- `unitParams` with different `dt` and `random_seed` and every other field
unchanged. -/
noncomputable def altClockParams : SystemParameters :=
  ⟨0.1, 0.1, 1, 0.5, 1, 1, 1, 1, 1, 7, 99, 0.5, 0.95⟩

theorem update_collateral_nonneg (C P S shock : ℝ) :
    0 ≤ update_collateral C P S shock := by
  unfold update_collateral
  exact le_max_right _ _

theorem update_liquidity_ge_floor (L P S C : ℝ) (p : SystemParameters) :
    p.initial_liquidity * 0.01 ≤ update_liquidity L P S C p :=
  le_max_right _ _

theorem update_demand_ge_floor (D P S C L : ℝ) (p : SystemParameters) :
    p.initial_demand * 0.01 ≤ update_demand D P S C L p := by
  unfold update_demand
  exact le_max_right _ _

theorem update_price_ge_floor (S D L C : ℝ) (p : SystemParameters) :
    0.001 ≤ update_price S D L C p := by
  unfold update_price
  split
  · norm_num
  · exact le_max_right _ _

theorem update_supply_nonneg (S P L C : ℝ) (p : SystemParameters)
    (hS : 0 ≤ S) (hL : 0 ≤ L) (hmc : 0 ≤ p.mint_coefficient) :
    0 ≤ update_supply S P L C p := by
  simp only [update_supply]
  split
  · rename_i hdev
    have h1 : 0 ≤ p.mint_coefficient * (P - 1) * S :=
      mul_nonneg (mul_nonneg hmc (by linarith)) hS
    have h2 : 0 ≤ L * 0.1 := by linarith
    have h3 := le_min h1 h2
    linarith
  · rw [sub_nonneg]
    exact le_trans (min_le_right _ _) (by linarith)

theorem divRaise_eq_of_ne (a b : ℝ) (hb : b ≠ 0) : divRaise a b = some (a / b) := by
  simp [divRaise, hb]

theorem update_supplyExc_eq (S P L C : ℝ) (p : SystemParameters)
    (h : p.initial_liquidity ≠ 0) :
    update_supplyExc S P L C p = some (update_supply S P L C p) := by
  simp only [update_supplyExc, update_supply, divRaise_eq_of_ne _ _ h]
  split
  · rfl
  · rfl

theorem update_liquidityExc_eq (L P S C : ℝ) (p : SystemParameters)
    (h : p.initial_liquidity ≠ 0) :
    update_liquidityExc L P S C p = some (update_liquidity L P S C p) := by
  simp only [update_liquidityExc, update_liquidity, liquidityFlow,
    divRaise_eq_of_ne _ _ h, Option.bind_some]
  rfl

theorem update_priceExc_eq (S D L C : ℝ) (p : SystemParameters)
    (h : p.initial_liquidity ≠ 0) :
    update_priceExc S D L C p = some (update_price S D L C p) := by
  simp only [update_priceExc, update_price]
  split
  · rfl
  · rename_i hS
    have hS' : S ≠ 0 := fun hz => hS (le_of_eq hz)
    simp only [divRaise_eq_of_ne _ _ hS', divRaise_eq_of_ne _ _ h]
    rfl

/-- C2: `simulate_step` equals the composition, in the source's fixed order,
of the five per-quantity rules, each later rule consuming the already-updated
values of earlier ones, with no other input. -/
theorem c2_step_composition (st : SystemState) (p : SystemParameters) (cs ls : ℝ) :
    simulate_step st p cs ls =
      SystemState.mk
        (update_supply st.supply st.price
          (update_liquidity st.liquidity st.price st.supply
            (update_collateral st.collateral st.price st.supply cs) p * (1 + ls))
          (update_collateral st.collateral st.price st.supply cs) p)
        (update_price
          (update_supply st.supply st.price
            (update_liquidity st.liquidity st.price st.supply
              (update_collateral st.collateral st.price st.supply cs) p * (1 + ls))
            (update_collateral st.collateral st.price st.supply cs) p)
          (update_demand st.demand st.price st.supply
            (update_collateral st.collateral st.price st.supply cs)
            (update_liquidity st.liquidity st.price st.supply
              (update_collateral st.collateral st.price st.supply cs) p * (1 + ls)) p)
          (update_liquidity st.liquidity st.price st.supply
            (update_collateral st.collateral st.price st.supply cs) p * (1 + ls))
          (update_collateral st.collateral st.price st.supply cs) p)
        (update_collateral st.collateral st.price st.supply cs)
        (update_liquidity st.liquidity st.price st.supply
          (update_collateral st.collateral st.price st.supply cs) p * (1 + ls))
        (update_demand st.demand st.price st.supply
          (update_collateral st.collateral st.price st.supply cs)
          (update_liquidity st.liquidity st.price st.supply
            (update_collateral st.collateral st.price st.supply cs) p * (1 + ls)) p) :=
  rfl

/-- C8: with zero exogenous shock and positive collateral, a price below 0.9
strictly decreases collateral versus the identical state at price 1.0
(reflexive crash). -/
theorem c8_reflexive_crash (C P S S' : ℝ) (hC : 0 < C) (hP : P < 0.9) :
    update_collateral C P S 0 < update_collateral C 1 S' 0 := by
  have hrhs : update_collateral C 1 S' 0 = C := by
    simp only [update_collateral]
    rw [if_neg (by norm_num : ¬ (1 : ℝ) < 0.9)]
    rw [max_eq_left (by linarith : (0:ℝ) ≤ C * (1 + 0))]
    ring
  rw [hrhs]
  simp only [update_collateral]
  rw [if_pos hP]
  have hcrash : 0 < (0.9 - P) / 0.9 * 0.2 :=
    mul_pos (div_pos (by linarith) (by norm_num)) (by norm_num)
  rw [max_lt_iff]
  constructor
  · nlinarith
  · exact hC

/-- C9: `simulate_step` is deterministic, and its output is independent of
the `dt` and `random_seed` fields: parameters differing only there yield
identical results for every state and shock pair. -/
theorem c9_determinism :
    (∀ (st : SystemState) (p : SystemParameters) (cs ls : ℝ),
      simulate_step st p cs ls = simulate_step st p cs ls) ∧
    ∀ (p₁ p₂ : SystemParameters) (st : SystemState) (cs ls : ℝ),
      p₁.mint_coefficient = p₂.mint_coefficient →
      p₁.burn_coefficient = p₂.burn_coefficient →
      p₁.liquidity_depth = p₂.liquidity_depth →
      p₁.demand_elasticity = p₂.demand_elasticity →
      p₁.initial_supply = p₂.initial_supply →
      p₁.initial_collateral = p₂.initial_collateral →
      p₁.initial_price = p₂.initial_price →
      p₁.initial_liquidity = p₂.initial_liquidity →
      p₁.initial_demand = p₂.initial_demand →
      p₁.collapse_price_threshold = p₂.collapse_price_threshold →
      p₁.recovery_price_threshold = p₂.recovery_price_threshold →
      simulate_step st p₁ cs ls = simulate_step st p₂ cs ls := by
  refine ⟨fun _ _ _ _ => rfl, ?_⟩
  intro p₁ p₂ st cs ls h1 h2 h3 h4 h5 h6 h7 h8 h9 h10 h11
  cases p₁
  cases p₂
  simp only at h1 h2 h3 h4 h5 h6 h7 h8 h9 h10 h11
  subst h1 h2 h3 h4 h5 h6 h7 h8 h9 h10 h11
  rfl

/-- C9 witness: two concrete parameter records differing only in `dt` and
`random_seed` produce the same step output. -/
theorem c9_determinism_witness :
    simulate_step ⟨1, 1, 1, 1, 1⟩ unitParams 0 0 =
      simulate_step ⟨1, 1, 1, 1, 1⟩ altClockParams 0 0 :=
  c9_determinism.2 unitParams altClockParams ⟨1, 1, 1, 1, 1⟩ 0 0
    rfl rfl rfl rfl rfl rfl rfl rfl rfl rfl rfl

/-- C1 counterexample: at state `(1, 2, 0, 0, 0)` with non-negative initial
conditions but `mint_coefficient = -10` (left unconstrained by the claim) and
zero shocks, the returned supply is negative: the un-capped mint delta is
negative and `min` keeps it. -/
theorem c1_counterexample :
    (simulate_step ⟨1, 2, 0, 0, 0⟩ negMintParams 0 0).supply < 0 := by
  have hC : update_collateral 0 2 1 0 = 0 := by
    simp only [update_collateral]
    rw [if_neg (by norm_num : ¬ (2:ℝ) < 0.9)]
    norm_num
  have hL : update_liquidity 0 2 1 0 negMintParams = 0.01 := by
    simp only [update_liquidity, negMintParams, zero_mul]
    rw [max_eq_right (by norm_num : (0:ℝ) ≤ 1 * 0.01)]
    norm_num
  have hup : update_supply 1 2 (0.01 * (1 + 0)) 0 negMintParams = -9 := by
    simp only [update_supply, negMintParams]
    rw [if_pos (by norm_num : (2:ℝ) - 1 > 0)]
    rw [min_eq_left (by norm_num : (-10:ℝ) * (2 - 1) * 1 ≤ 0.01 * (1 + 0) * 0.1)]
    norm_num
  simp only [simulate_step]
  rw [hC, hL, hup]
  norm_num

/-- C1 (amended): positivity of `simulate_step`.  The claim's hypotheses are
strengthened by `0 ≤ mint_coefficient` (the counterexample above) and by
`0 < initial_liquidity` (with `initial_liquidity = 0` the source raises
`ZeroDivisionError` instead of returning a tuple); with those, all five
returned quantities are non-negative and the price is at least `0.001`. -/
theorem c1_positivity (st : SystemState) (p : SystemParameters)
    (hS : 0 ≤ st.supply) (hP : 0 ≤ st.price) (hC : 0 ≤ st.collateral)
    (hL : 0 ≤ st.liquidity) (hD : 0 ≤ st.demand)
    (hiS : 0 ≤ p.initial_supply) (hiC : 0 ≤ p.initial_collateral)
    (hiP : 0 ≤ p.initial_price) (hiL : 0 < p.initial_liquidity)
    (hiD : 0 ≤ p.initial_demand) (hmc : 0 ≤ p.mint_coefficient)
    (cs ls : ℝ) (hcs : -1 ≤ cs) (hls : -1 ≤ ls) :
    0 ≤ (simulate_step st p cs ls).supply ∧
    0.001 ≤ (simulate_step st p cs ls).price ∧
    0 ≤ (simulate_step st p cs ls).collateral ∧
    0 ≤ (simulate_step st p cs ls).liquidity ∧
    0 ≤ (simulate_step st p cs ls).demand := by
  simp only [simulate_step]
  have hC' := update_collateral_nonneg st.collateral st.price st.supply cs
  have hLf := update_liquidity_ge_floor st.liquidity st.price st.supply
    (update_collateral st.collateral st.price st.supply cs) p
  have hL0 : 0 ≤ update_liquidity st.liquidity st.price st.supply
      (update_collateral st.collateral st.price st.supply cs) p :=
    le_trans (by nlinarith) hLf
  have hL' : 0 ≤ update_liquidity st.liquidity st.price st.supply
      (update_collateral st.collateral st.price st.supply cs) p * (1 + ls) :=
    mul_nonneg hL0 (by linarith)
  refine ⟨?_, ?_, ?_, ?_, ?_⟩
  · exact update_supply_nonneg _ _ _ _ p hS hL' hmc
  · exact update_price_ge_floor _ _ _ _ p
  · exact hC'
  · exact hL'
  · exact le_trans (by nlinarith) (update_demand_ge_floor st.demand st.price st.supply
      (update_collateral st.collateral st.price st.supply cs)
      (update_liquidity st.liquidity st.price st.supply
        (update_collateral st.collateral st.price st.supply cs) p * (1 + ls)) p)

/-- C1 witness at the peg-consistent unit state. -/
theorem c1_positivity_witness :
    0 ≤ (simulate_step ⟨1, 1, 1, 1, 1⟩ unitParams 0 0).supply ∧
    0.001 ≤ (simulate_step ⟨1, 1, 1, 1, 1⟩ unitParams 0 0).price ∧
    0 ≤ (simulate_step ⟨1, 1, 1, 1, 1⟩ unitParams 0 0).collateral ∧
    0 ≤ (simulate_step ⟨1, 1, 1, 1, 1⟩ unitParams 0 0).liquidity ∧
    0 ≤ (simulate_step ⟨1, 1, 1, 1, 1⟩ unitParams 0 0).demand :=
  c1_positivity ⟨1, 1, 1, 1, 1⟩ unitParams (by norm_num) (by norm_num) (by norm_num)
    (by norm_num) (by norm_num) (by norm_num [unitParams]) (by norm_num [unitParams])
    (by norm_num [unitParams]) (by norm_num [unitParams]) (by norm_num [unitParams])
    (by norm_num [unitParams]) 0 0 (by norm_num) (by norm_num)

/-- C3 counterexample: the source applies the 1%-of-initial floor inside
`update_liquidity` and the multiplicative liquidity shock afterwards, so a
`-0.9` shock leaves `0.001 * initial_liquidity`, below the claimed 1% floor. -/
theorem c3_counterexample :
    (simulate_step ⟨1, 1, 1, 0, 1⟩ unitParams 0 (-0.9)).liquidity <
      unitParams.initial_liquidity * 0.01 := by
  have hup : update_liquidity 0 1 1 (update_collateral 1 1 1 0) unitParams = 0.01 := by
    simp only [update_liquidity, unitParams, zero_mul]
    rw [max_eq_right (by norm_num : (0:ℝ) ≤ 1 * 0.01)]
    norm_num
  simp only [simulate_step]
  rw [hup]
  norm_num [unitParams]

/-- C3 (amended): the floor is applied before the exogenous shock, so the
liquidity returned by `simulate_step` is at least
`(1 + liquidity_shock) * 1%` of `initial_liquidity`; the claimed 1% bound
holds whenever the liquidity shock is non-negative. -/
theorem c3_liquidity_floor (st : SystemState) (p : SystemParameters) (cs ls : ℝ)
    (hiL : 0 < p.initial_liquidity) (hls : -1 ≤ ls) :
    p.initial_liquidity * 0.01 * (1 + ls) ≤ (simulate_step st p cs ls).liquidity ∧
    (0 ≤ ls → p.initial_liquidity * 0.01 ≤ (simulate_step st p cs ls).liquidity) := by
  simp only [simulate_step]
  have hfloor := update_liquidity_ge_floor st.liquidity st.price st.supply
    (update_collateral st.collateral st.price st.supply cs) p
  constructor
  · exact mul_le_mul_of_nonneg_right hfloor (by linarith)
  · intro h0
    calc p.initial_liquidity * 0.01
        ≤ p.initial_liquidity * 0.01 * (1 + ls) := by nlinarith
      _ ≤ _ := mul_le_mul_of_nonneg_right hfloor (by linarith)

/-- C3 witness at the unit state with a `-0.5` liquidity shock. -/
theorem c3_liquidity_floor_witness :
    unitParams.initial_liquidity * 0.01 * (1 + (-0.5)) ≤
      (simulate_step ⟨1, 1, 1, 1, 1⟩ unitParams 0 (-0.5)).liquidity ∧
    (0 ≤ (-0.5 : ℝ) → unitParams.initial_liquidity * 0.01 ≤
      (simulate_step ⟨1, 1, 1, 1, 1⟩ unitParams 0 (-0.5)).liquidity) :=
  c3_liquidity_floor ⟨1, 1, 1, 1, 1⟩ unitParams 0 (-0.5)
    (by norm_num [unitParams]) (by norm_num)

/-- C4 counterexample: `update_liquidity` divides by `initial_liquidity`
without a guard, so with `initial_liquidity = 0` the source raises
`ZeroDivisionError` (modelled by `none`) instead of returning a value. -/
theorem c4_counterexample : update_liquidityExc 1 1 1 1 zeroLiqParams = none := by
  simp [update_liquidityExc, zeroLiqParams, divRaise]

/-- C4 (amended): every division by the current supply is guarded by an
`S > 0` (or `S <= 0`) test substituting the neutral ratio `1.0`, and the
division by `initial_liquidity` is guarded only in `update_demand`;
`update_supply`, `update_liquidity` and `update_price` divide by
`initial_liquidity` unguarded, so the four core updates return a value (equal
to the total-division embedding) exactly when `initial_liquidity ≠ 0`. -/
theorem c4_division_guards (p : SystemParameters) (h : p.initial_liquidity ≠ 0) :
    (∀ S P L C : ℝ, update_supplyExc S P L C p = some (update_supply S P L C p)) ∧
    (∀ L P S C : ℝ, update_liquidityExc L P S C p = some (update_liquidity L P S C p)) ∧
    (∀ D P S C L : ℝ, update_demandExc D P S C L p = some (update_demand D P S C L p)) ∧
    (∀ S D L C : ℝ, update_priceExc S D L C p = some (update_price S D L C p)) :=
  ⟨fun S P L C => update_supplyExc_eq S P L C p h,
   fun L P S C => update_liquidityExc_eq L P S C p h,
   fun _ _ _ _ _ => rfl,
   fun S D L C => update_priceExc_eq S D L C p h⟩

/-- C4 witness at unit parameters (`initial_liquidity = 1`). -/
theorem c4_division_guards_witness :
    update_liquidityExc 1 1 1 1 unitParams = some (update_liquidity 1 1 1 1 unitParams) :=
  (c4_division_guards unitParams (by norm_num [unitParams])).2.1 1 1 1 1

/-- C7: price instability (`|P - 1| > 0.05`) combined with an
undercollateralized ratio makes the liquidity growth rate (the `total_flow`
applied by `update_liquidity`) strictly smaller than the rate of the
stable, fully-collateralized baseline at the same liquidity; and that flow is
exactly what `update_liquidity` applies before its floor. -/
theorem c7_liquidity_flight (L P S C Q T B : ℝ) (p : SystemParameters)
    (hS : 0 < S) (hT : 0 < T)
    (hP : 0.05 < |P - 1|) (hcr : C / S < 1)
    (hQ : |Q - 1| ≤ 0.05) (hcrB : 1 ≤ B / T) :
    liquidityFlow L P S C p < liquidityFlow L Q T B p ∧
    update_liquidity L P S C p =
      max (L * (1 + liquidityFlow L P S C p)) (p.initial_liquidity * 0.01) := by
  refine ⟨?_, rfl⟩
  simp only [liquidityFlow]
  rw [if_pos hS, if_pos hT, if_pos hcr, if_neg (not_lt.mpr hcrB),
      if_pos hP, if_neg (not_lt.mpr hQ)]
  have habs : 0 ≤ |P - 1| := abs_nonneg _
  have habsQ : 0 ≤ |Q - 1| := abs_nonneg _
  linarith

/-- C7 witness: stressed state (price 1.2, collateral ratio 0.5) against the
baseline (price 1, collateral ratio 2) at the same liquidity. -/
theorem c7_liquidity_flight_witness :
    liquidityFlow 1 1.2 1 0.5 unitParams < liquidityFlow 1 1 1 2 unitParams ∧
    update_liquidity 1 1.2 1 0.5 unitParams =
      max (1 * (1 + liquidityFlow 1 1.2 1 0.5 unitParams))
        (unitParams.initial_liquidity * 0.01) :=
  c7_liquidity_flight 1 1.2 1 0.5 1 1 2 unitParams (by norm_num) (by norm_num)
    (by rw [show (1.2:ℝ) - 1 = 0.2 by norm_num,
            abs_of_pos (by norm_num : (0:ℝ) < 0.2)]; norm_num)
    (by norm_num)
    (by rw [sub_self, abs_zero]; norm_num)
    (by norm_num)

theorem update_supply_burn (S P L C : ℝ) (p : SystemParameters)
    (hS : 0 < S) (hP : P ≤ 1) :
    update_supply S P L C p =
      S - min (p.burn_coefficient * |P - 1| * S *
        ((if P < 0.8 then
            (if C / S < 1 then max ((C / S) ^ 2) 0.01 else 1) * (P / 0.8) ^ 2
          else (if C / S < 1 then max ((C / S) ^ 2) 0.01 else 1)) *
          min (L / p.initial_liquidity) 1)) (S * 0.1) := by
  simp only [update_supply]
  rw [if_neg (by linarith : ¬ (P - 1 > 0)), if_pos hS]

/-- C6 counterexample: at price exactly `0` (allowed by "price < 1") the
falling-knife factor `(P/0.8)^2` is zero, the burn is zero, and the supply is
unchanged rather than strictly decreased, although the state is fully
collateralized with ample liquidity and positive coefficients. -/
theorem c6_counterexample : update_supply 1 0 1 1 unitParams = 1 := by
  simp only [update_supply, unitParams]
  rw [if_neg (by norm_num : ¬ ((0:ℝ) - 1 > 0)), if_pos (by norm_num : (1:ℝ) > 0),
      if_neg (by norm_num : ¬ ((1:ℝ) / 1 < 1)), if_pos (by norm_num : (0:ℝ) < 0.8)]
  rw [min_eq_left (by norm_num : ((1:ℝ) / 1) ≤ 1)]
  norm_num

/-- C6 (amended): with full collateralization, ample liquidity
(`0 < initial_liquidity ≤ L`), and positive coefficients, price above peg
strictly mints; price strictly between `0` and `1` strictly burns (at price
`0` the falling-knife factor kills the burn, so `0 < P` is required). -/
theorem c6_mint_burn_direction (S P L C : ℝ) (p : SystemParameters)
    (hS : 0 < S) (hcr : 1 ≤ C / S) (hiL : 0 < p.initial_liquidity)
    (hLamp : p.initial_liquidity ≤ L)
    (hmc : 0 < p.mint_coefficient) (hbc : 0 < p.burn_coefficient) :
    (1 < P → S < update_supply S P L C p) ∧
    (0 < P → P < 1 → update_supply S P L C p < S) := by
  have hL : 0 < L := lt_of_lt_of_le hiL hLamp
  constructor
  · intro hP
    simp only [update_supply]
    rw [if_pos (by linarith : P - 1 > 0)]
    have h1 : 0 < p.mint_coefficient * (P - 1) * S :=
      mul_pos (mul_pos hmc (by linarith)) hS
    have h2 : 0 < L * 0.1 := by linarith
    have h3 := lt_min h1 h2
    linarith
  · intro hP0 hP1
    rw [update_supply_burn S P L C p hS (le_of_lt hP1)]
    rw [if_neg (not_lt.mpr hcr)]
    rw [min_eq_right ((one_le_div hiL).mpr hLamp)]
    have habs : |P - 1| = 1 - P := by
      rw [abs_of_neg (by linarith : P - 1 < 0)]; ring
    rw [habs]
    have hk : 0 < (if P < 0.8 then (1:ℝ) * (P / 0.8) ^ 2 else 1) := by
      split
      · have hq : 0 < P / 0.8 := div_pos hP0 (by norm_num)
        have := pow_pos hq 2
        linarith
      · norm_num
    have hburnpos : 0 < p.burn_coefficient * (1 - P) * S *
        ((if P < 0.8 then (1:ℝ) * (P / 0.8) ^ 2 else 1) * 1) := by
      have := mul_pos (mul_pos (mul_pos hbc (by linarith : (0:ℝ) < 1 - P)) hS)
        (mul_pos hk (by norm_num : (0:ℝ) < 1))
      linarith
    have hcap : 0 < S * 0.1 := by linarith
    have h4 := lt_min hburnpos hcap
    linarith

/-- C6 witness, mint direction at price 1.1 and burn direction at price 0.95. -/
theorem c6_mint_burn_direction_witness :
    (1:ℝ) < update_supply 1 1.1 1 1 unitParams ∧
    update_supply 1 0.95 1 1 unitParams < 1 :=
  ⟨(c6_mint_burn_direction 1 1.1 1 1 unitParams (by norm_num) (by norm_num)
      (by norm_num [unitParams]) (by norm_num [unitParams])
      (by norm_num [unitParams]) (by norm_num [unitParams])).1 (by norm_num),
   (c6_mint_burn_direction 1 0.95 1 1 unitParams (by norm_num) (by norm_num)
      (by norm_num [unitParams]) (by norm_num [unitParams])
      (by norm_num [unitParams]) (by norm_num [unitParams])).2 (by norm_num) (by norm_num)⟩

theorem burn_amount_mono (S P L C C' : ℝ) (p : SystemParameters)
    (hS : 0 < S) (hP1 : P ≤ 1) (hbc : 0 ≤ p.burn_coefficient)
    (hL : 0 ≤ L) (hiL : 0 ≤ p.initial_liquidity)
    (hC' : 0 ≤ C') (hCC : C' ≤ C) :
    S - update_supply S P L C' p ≤ S - update_supply S P L C p := by
  rw [update_supply_burn S P L C p hS hP1, update_supply_burn S P L C' p hS hP1]
  have hsplit : ∀ f : ℝ,
      (if P < 0.8 then f * (P / 0.8) ^ 2 else f) =
        f * (if P < 0.8 then (P / 0.8) ^ 2 else 1) := by
    intro f; split <;> ring
  rw [hsplit, hsplit]
  have hk0 : 0 ≤ (if P < 0.8 then (P / 0.8) ^ 2 else 1) := by
    split
    · positivity
    · norm_num
  have hm0 : 0 ≤ min (L / p.initial_liquidity) 1 := by
    exact le_min (div_nonneg hL hiL) (by norm_num)
  have hratio : C' / S ≤ C / S := (div_le_div_right hS).mpr hCC
  have hf : (if C' / S < 1 then max ((C' / S) ^ 2) 0.01 else 1) ≤
      (if C / S < 1 then max ((C / S) ^ 2) 0.01 else 1) := by
    by_cases h1 : C / S < 1
    · rw [if_pos h1, if_pos (lt_of_le_of_lt hratio h1)]
      exact max_le_max (pow_le_pow_left (div_nonneg hC' hS.le) hratio 2) le_rfl
    · rw [if_neg h1]
      by_cases h2 : C' / S < 1
      · rw [if_pos h2]
        exact max_le (pow_le_one (div_nonneg hC' hS.le) (le_of_lt h2)) (by norm_num)
      · rw [if_neg h2]
  have hbase : 0 ≤ p.burn_coefficient * |P - 1| * S :=
    mul_nonneg (mul_nonneg hbc (abs_nonneg _)) hS.le
  have hprod : p.burn_coefficient * |P - 1| * S *
      ((if C' / S < 1 then max ((C' / S) ^ 2) 0.01 else 1) *
        (if P < 0.8 then (P / 0.8) ^ 2 else 1) * min (L / p.initial_liquidity) 1) ≤
      p.burn_coefficient * |P - 1| * S *
      ((if C / S < 1 then max ((C / S) ^ 2) 0.01 else 1) *
        (if P < 0.8 then (P / 0.8) ^ 2 else 1) * min (L / p.initial_liquidity) 1) := by
    apply mul_le_mul_of_nonneg_left _ hbase
    exact mul_le_mul_of_nonneg_right (mul_le_mul_of_nonneg_right hf hk0) hm0
  have hmin := min_le_min hprod (le_refl (S * 0.1))
  linarith

/-- C5 counterexample: with zero liquidity (allowed by "fixed liquidity") the
liquidity-effectiveness factor is zero, so the burn amount is zero both at
collateral ratio 0.5 and at collateral ratio 2 — not strictly smaller. -/
theorem c5_counterexample :
    update_supply 1 0.95 0 0.5 unitParams = 1 ∧
    update_supply 1 0.95 0 2 unitParams = 1 := by
  constructor
  · rw [update_supply_burn 1 0.95 0 0.5 unitParams (by norm_num) (by norm_num)]
    rw [if_neg (by norm_num : ¬ ((0.95:ℝ) < 0.8))]
    rw [show ((0:ℝ) / unitParams.initial_liquidity) = 0 by norm_num]
    rw [min_eq_left (by norm_num : (0:ℝ) ≤ 1)]
    rw [min_eq_left (by norm_num [unitParams] :
      unitParams.burn_coefficient * |(0.95:ℝ) - 1| * 1 *
        ((if (0.5:ℝ) / 1 < 1 then max (((0.5:ℝ) / 1) ^ 2) 0.01 else 1) * 0) ≤ 1 * 0.1)]
    norm_num
  · rw [update_supply_burn 1 0.95 0 2 unitParams (by norm_num) (by norm_num)]
    rw [if_neg (by norm_num : ¬ ((0.95:ℝ) < 0.8))]
    rw [show ((0:ℝ) / unitParams.initial_liquidity) = 0 by norm_num]
    rw [min_eq_left (by norm_num : (0:ℝ) ≤ 1)]
    rw [min_eq_left (by norm_num [unitParams] :
      unitParams.burn_coefficient * |(0.95:ℝ) - 1| * 1 *
        ((if (2:ℝ) / 1 < 1 then max (((2:ℝ) / 1) ^ 2) 0.01 else 1) * 0) ≤ 1 * 0.1)]
    norm_num

/-- C5 (amended): with positive price, positive liquidity and initial
liquidity, and a burn small enough that the 10% supply cap does not bind at
full collateralization (`burn_coefficient * (1 - P) ≤ 0.1`), dropping the
collateral ratio below 1 strictly decreases the burn amount; and for any two
collateral levels the burn amount is monotonically non-increasing as the
collateral deficit grows. -/
theorem c5_burn_effectiveness (S P L Chi Clo : ℝ) (p : SystemParameters)
    (hP0 : 0 < P) (hP1 : P < 1) (hS : 0 < S) (hbc : 0 < p.burn_coefficient)
    (hL : 0 < L) (hiL : 0 < p.initial_liquidity)
    (hcap : p.burn_coefficient * (1 - P) ≤ 0.1)
    (hClo : 0 ≤ Clo) (hlo : Clo / S < 1) (hhi : 1 ≤ Chi / S) :
    S - update_supply S P L Clo p < S - update_supply S P L Chi p ∧
    ∀ C C' : ℝ, 0 ≤ C' → C' ≤ C →
      S - update_supply S P L C' p ≤ S - update_supply S P L C p := by
  constructor
  · rw [update_supply_burn S P L Clo p hS (le_of_lt hP1),
        update_supply_burn S P L Chi p hS (le_of_lt hP1)]
    have hsplit : ∀ f : ℝ,
        (if P < 0.8 then f * (P / 0.8) ^ 2 else f) =
          f * (if P < 0.8 then (P / 0.8) ^ 2 else 1) := by
      intro f; split <;> ring
    rw [hsplit, hsplit, if_pos hlo, if_neg (not_lt.mpr hhi)]
    have habs : |P - 1| = 1 - P := by
      rw [abs_of_neg (by linarith : P - 1 < 0)]; ring
    rw [habs]
    have hk0 : 0 < (if P < 0.8 then (P / 0.8) ^ 2 else 1) := by
      split
      · exact pow_pos (div_pos hP0 (by norm_num)) 2
      · norm_num
    have hk1 : (if P < 0.8 then (P / 0.8) ^ 2 else 1) ≤ 1 := by
      split
      · rename_i h8
        exact pow_le_one (div_nonneg hP0.le (by norm_num))
          (le_of_lt ((div_lt_one (by norm_num)).mpr h8))
      · exact le_refl 1
    have hm0 : 0 < min (L / p.initial_liquidity) 1 :=
      lt_min (div_pos hL hiL) one_pos
    have hm1 : min (L / p.initial_liquidity) 1 ≤ 1 := min_le_right _ _
    have hfLo1 : max ((Clo / S) ^ 2) 0.01 < 1 :=
      max_lt (pow_lt_one (div_nonneg hClo hS.le) hlo (by norm_num)) (by norm_num)
    have hbase : 0 < p.burn_coefficient * (1 - P) * S :=
      mul_pos (mul_pos hbc (by linarith)) hS
    have hkey : p.burn_coefficient * (1 - P) * S *
        (max ((Clo / S) ^ 2) 0.01 * (if P < 0.8 then (P / 0.8) ^ 2 else 1) *
          min (L / p.initial_liquidity) 1) <
        p.burn_coefficient * (1 - P) * S *
        (1 * (if P < 0.8 then (P / 0.8) ^ 2 else 1) *
          min (L / p.initial_liquidity) 1) := by
      apply mul_lt_mul_of_pos_left _ hbase
      exact mul_lt_mul_of_pos_right (mul_lt_mul_of_pos_right hfLo1 hk0) hm0
    have hBle : p.burn_coefficient * (1 - P) * S *
        (1 * (if P < 0.8 then (P / 0.8) ^ 2 else 1) *
          min (L / p.initial_liquidity) 1) ≤ S * 0.1 := by
      have hle1 : (1:ℝ) * (if P < 0.8 then (P / 0.8) ^ 2 else 1) *
          min (L / p.initial_liquidity) 1 ≤ 1 := by
        rw [one_mul]
        exact mul_le_one hk1 (le_of_lt hm0) hm1
      have h2 : p.burn_coefficient * (1 - P) * S *
          (1 * (if P < 0.8 then (P / 0.8) ^ 2 else 1) *
            min (L / p.initial_liquidity) 1) ≤
          p.burn_coefficient * (1 - P) * S * 1 :=
        mul_le_mul_of_nonneg_left hle1 hbase.le
      have h3 : p.burn_coefficient * (1 - P) * S ≤ 0.1 * S := by
        have := mul_le_mul_of_nonneg_right hcap hS.le
        linarith
      nlinarith
    have hlt : min (p.burn_coefficient * (1 - P) * S *
        (max ((Clo / S) ^ 2) 0.01 * (if P < 0.8 then (P / 0.8) ^ 2 else 1) *
          min (L / p.initial_liquidity) 1)) (S * 0.1) <
        min (p.burn_coefficient * (1 - P) * S *
        (1 * (if P < 0.8 then (P / 0.8) ^ 2 else 1) *
          min (L / p.initial_liquidity) 1)) (S * 0.1) := by
      rw [min_eq_left hBle]
      exact lt_of_le_of_lt (min_le_left _ _) hkey
    linarith
  · intro C C' hC' hCC
    exact burn_amount_mono S P L C C' p hS (le_of_lt hP1) hbc.le hL.le hiL.le hC' hCC

/-- C5 witness: price 0.95, unit liquidity, collateral ratio 0.5 versus 2. -/
theorem c5_burn_effectiveness_witness :
    1 - update_supply 1 0.95 1 0.5 unitParams < 1 - update_supply 1 0.95 1 2 unitParams ∧
    ∀ C C' : ℝ, 0 ≤ C' → C' ≤ C →
      1 - update_supply 1 0.95 1 C' unitParams ≤ 1 - update_supply 1 0.95 1 C unitParams :=
  c5_burn_effectiveness 1 0.95 1 2 0.5 unitParams (by norm_num) (by norm_num)
    (by norm_num) (by norm_num [unitParams]) (by norm_num) (by norm_num [unitParams])
    (by norm_num [unitParams]) (by norm_num) (by norm_num) (by norm_num)

/-- C10 counterexample: the claim leaves `initial_liquidity` unconstrained,
but at the peg-consistent state `(1, 1, 1, 1, 1)` with
`initial_liquidity = 0` the source raises `ZeroDivisionError` inside
`update_liquidity` (modelled by `none`) instead of returning the state with
liquidity multiplied by 1.02. -/
theorem c10_counterexample :
    simulate_stepExc ⟨1, 1, 1, 1, 1⟩ zeroLiqParams 0 0 = none := by
  simp [simulate_stepExc, update_liquidityExc, divRaise, zeroLiqParams]

/-- C10 (amended): for a peg-consistent state with zero shocks — price 1,
positive supply, collateral at least supply, demand equal to supply and at
least 1% of initial demand, liquidity at least half of initial liquidity —
and additionally `0 < initial_liquidity` (otherwise the source raises),
`simulate_step` leaves supply, price, collateral and demand unchanged and
multiplies liquidity by exactly 1.02. -/
theorem c10_peg_fixed_point (S C L D : ℝ) (p : SystemParameters)
    (hS : 0 < S) (hCge : S ≤ C) (hDS : D = S)
    (hDfl : p.initial_demand * 0.01 ≤ D)
    (hL05 : p.initial_liquidity * 0.5 ≤ L) (hiL : 0 < p.initial_liquidity) :
    simulate_step ⟨S, 1, C, L, D⟩ p 0 0 = ⟨S, 1, C, 1.02 * L, D⟩ := by
  have hcr : 1 ≤ C / S := (one_le_div hS).mpr hCge
  have hC0 : 0 < C := lt_of_lt_of_le hS hCge
  have hCnew : update_collateral C 1 S 0 = C := by
    simp only [update_collateral]
    rw [if_neg (by norm_num : ¬ ((1:ℝ) < 0.9))]
    rw [show C * (1 + 0) = C by ring]
    exact max_eq_left hC0.le
  have hflow : liquidityFlow L 1 S C p = 0.02 := by
    simp only [liquidityFlow]
    rw [if_pos hS, if_neg (not_lt.mpr hcr)]
    rw [sub_self, abs_zero]
    rw [if_neg (by norm_num : ¬ ((0:ℝ) > 0.05))]
    rw [if_neg (not_lt.mpr ((le_div_iff hiL).mpr (by linarith : (0.5:ℝ) * p.initial_liquidity ≤ L)))]
    norm_num
  have hLup : update_liquidity L 1 S C p = L * 1.02 := by
    simp only [update_liquidity]
    rw [hflow]
    rw [max_eq_left (by nlinarith : p.initial_liquidity * 0.01 ≤ L * (1 + 0.02))]
    norm_num
  have hLmul : update_liquidity L 1 S C p * (1 + 0) = 1.02 * L := by
    rw [hLup]; ring
  have hliqratio : (0.3:ℝ) * p.initial_liquidity ≤ 1.02 * L := by nlinarith
  have hDup : update_demand D 1 S C (1.02 * L) p = D := by
    simp only [update_demand]
    rw [if_pos hS, if_neg (not_lt.mpr hcr)]
    rw [if_neg (by norm_num : ¬ ((1:ℝ) < 0.9))]
    rw [if_pos hiL]
    rw [if_neg (not_lt.mpr ((le_div_iff hiL).mpr hliqratio))]
    rw [show (-p.demand_elasticity * (1 - 1) + 0) * D = 0 by ring]
    rw [show D + 0 = D by ring]
    exact max_eq_left hDfl
  have hSup : update_supply S 1 (1.02 * L) C p = S := by
    simp only [update_supply]
    rw [if_neg (by norm_num : ¬ ((1:ℝ) - 1 > 0)), if_pos hS,
        if_neg (not_lt.mpr hcr), if_neg (by norm_num : ¬ ((1:ℝ) < 0.8))]
    rw [sub_self, abs_zero]
    rw [show p.burn_coefficient * 0 * S *
      ((1:ℝ) * min (1.02 * L / p.initial_liquidity) 1) = 0 by ring]
    rw [min_eq_left (by nlinarith : (0:ℝ) ≤ S * 0.1)]
    ring
  have hslip : (0.5:ℝ) * p.initial_liquidity ≤ 1.02 * L := by nlinarith
  have hPup : update_price S D (1.02 * L) C p = 1 := by
    simp only [update_price]
    rw [if_neg (not_le.mpr hS)]
    rw [if_neg (not_lt.mpr hcr)]
    rw [if_neg (not_lt.mpr ((le_div_iff hiL).mpr hslip))]
    rw [hDS, div_self (ne_of_gt hS)]
    exact max_eq_left (by norm_num)
  simp only [simulate_step]
  rw [hCnew, hLmul, hDup, hSup, hPup]

/-- C10 witness at the unit peg-consistent state. -/
theorem c10_peg_fixed_point_witness :
    simulate_step ⟨1, 1, 1, 1, 1⟩ unitParams 0 0 = ⟨1, 1, 1, 1.02 * 1, 1⟩ :=
  c10_peg_fixed_point 1 1 1 1 unitParams (by norm_num) (by norm_num) rfl
    (by norm_num [unitParams]) (by norm_num [unitParams]) (by norm_num [unitParams])

/-- C8 witness: collateral 1 at price 0.5 versus price 1.0. -/
theorem c8_reflexive_crash_witness :
    update_collateral 1 0.5 1 0 < update_collateral 1 1 1 0 :=
  c8_reflexive_crash 1 0.5 1 1 (by norm_num) (by norm_num)
